import Mathlib

/-!
Verification development for the payment-to-enrollment bridge service.

The service (src/src/index.ts) is embedded shallowly:
  * the Supabase data store becomes an explicit `Store` value (lists of rows
    plus fresh-id counters for inserted rows);
  * each store round trip can fail; failures of the external collaborator
    are injected through an explicit `Faults` record, one flag per store
    operation the reconciler may execute (each operation runs at most once
    per invocation);
  * JavaScript numbers carrying currency amounts are modelled as exact
    rationals (`Rat`);
  * `async/throw` control flow becomes `Except` results paired with the
    store state at the moment the function returns or throws (a failed
    store operation performs no write, so the state at a throw is the state
    before the failing call).
-/

deriving instance DecidableEq for Except

/-- Row of the `enrollments` table. -/
structure Enrollment where
  id : Nat
  student_id : String
  course_id : String
  status : String
deriving DecidableEq, Repr

/-- Row of the `payments` table. -/
structure Payment where
  id : Nat
  enrollment_id : Nat
  amount : Rat
  payment_method : String
  transaction_id : String
  status : String
deriving DecidableEq, Repr

/-- Row of the `courses` table (read-only for this service). -/
structure Course where
  id : String
  price : Rat
deriving DecidableEq, Repr

/-- The external data store: the three tables touched by the service plus
fresh-id counters standing for the store's id generation on insert. -/
structure Store where
  courses : List Course
  enrollments : List Enrollment
  payments : List Payment
  nextEnrollmentId : Nat
  nextPaymentId : Nat
deriving DecidableEq, Repr

/-- Errors surfaced by a store round trip. -/
inductive DbError where
  /-- An injected collaborator failure (store unreachable or erroring). -/
  | injected
  /-- `maybeSingle` or `single` found more than one matching row. -/
  | multipleRows
  /-- `single` found no matching row. -/
  | noRows
deriving DecidableEq, Repr

/-- Fault schedule for one request: one flag per store operation that the
handlers may execute (each is executed at most once per request). -/
structure Faults where
  checkEnrollmentFails : Bool
  checkPaymentFails : Bool
  insertEnrollmentFails : Bool
  insertPaymentFails : Bool
  fetchCourseFails : Bool
deriving DecidableEq, Repr

/-- The schedule on which every store operation succeeds. -/
def noFaults : Faults := ⟨false, false, false, false, false⟩

/-- Semantics of Supabase `.maybeSingle()`: zero rows give `none`, one row
gives that row, two or more rows give an error. -/
def maybeSingle {α : Type} (l : List α) : Except DbError (Option α) :=
  match l with
  | [] => .ok none
  | [a] => .ok (some a)
  | _ => .error .multipleRows

/-- Semantics of Supabase `.single()`: exactly one row or an error. -/
def single {α : Type} (l : List α) : Except DbError α :=
  match l with
  | [] => .error .noRows
  | [a] => .ok a
  | _ => .error .multipleRows

/-- Rows of `enrollments` matching `.eq(student_id, userId).eq(course_id, courseId)`. -/
def enrollmentMatches (s : Store) (userId courseId : String) : List Enrollment :=
  s.enrollments.filter (fun e => e.student_id == userId && e.course_id == courseId)

/-- Rows of `payments` matching `.eq(enrollment_id, enrollmentId).eq(transaction_id, sessionId)`. -/
def paymentMatches (s : Store) (enrollmentId : Nat) (sessionId : String) : List Payment :=
  s.payments.filter (fun p => p.enrollment_id == enrollmentId && p.transaction_id == sessionId)

/-- Insert into `payments` of the row the reconciler builds:
`{enrollment_id, amount, payment_method: stripe, transaction_id, status: completed}`. -/
def insertPaymentRow (s : Store) (enrollmentId : Nat) (amount : Rat) (sessionId : String) :
    Store :=
  { s with
    payments :=
      s.payments ++ [⟨s.nextPaymentId, enrollmentId, amount, "stripe", sessionId, "completed"⟩],
    nextPaymentId := s.nextPaymentId + 1 }

/-- Already-enrolled branch of `createEnrollmentWithPayment` (index.ts lines
78-113): look the payment up by (enrollment id, session id); a lookup failure
throws; if no payment exists and `amount > 0`, insert one, and a failed insert
throws; finally return the existing enrollment. -/
def existingBranch (f : Faults) (s : Store) (existingEnrollment : Enrollment)
    (amount : Rat) (sessionId : String) : Except DbError Enrollment × Store :=
  if f.checkPaymentFails then (.error .injected, s)
  else
    match maybeSingle (paymentMatches s existingEnrollment.id sessionId) with
    | .error e => (.error e, s)
    | .ok existingPayment =>
      if existingPayment = none ∧ 0 < amount then
        if f.insertPaymentFails then (.error .injected, s)
        else (.ok existingEnrollment, insertPaymentRow s existingEnrollment.id amount sessionId)
      else (.ok existingEnrollment, s)

/-- New-enrollment branch of `createEnrollmentWithPayment` (index.ts lines
116-149): insert the enrollment (a failed insert throws); then, when
`amount > 0`, insert the payment row, and a failed payment insert is logged
but NOT thrown — the new enrollment is returned either way. -/
def newBranch (f : Faults) (s : Store) (userId courseId : String)
    (amount : Rat) (sessionId : String) : Except DbError Enrollment × Store :=
  if f.insertEnrollmentFails then (.error .injected, s)
  else
    let e : Enrollment := ⟨s.nextEnrollmentId, userId, courseId, "active"⟩
    let s1 : Store :=
      { s with enrollments := s.enrollments ++ [e], nextEnrollmentId := s.nextEnrollmentId + 1 }
    if 0 < amount then
      if f.insertPaymentFails then (.ok e, s1)
      else (.ok e, insertPaymentRow s1 e.id amount sessionId)
    else (.ok e, s1)

/-- The Enrollment Reconciler, `createEnrollmentWithPayment(userId, courseId,
amount, sessionId)` of index.ts lines 56-150: check for an existing enrollment
for (userId, courseId) — a lookup failure throws — then dispatch to the
already-enrolled or the new-enrollment branch. -/
def createEnrollmentWithPayment (f : Faults) (s : Store) (userId courseId : String)
    (amount : Rat) (sessionId : String) : Except DbError Enrollment × Store :=
  if f.checkEnrollmentFails then (.error .injected, s)
  else
    match maybeSingle (enrollmentMatches s userId courseId) with
    | .error e => (.error e, s)
    | .ok (some existingEnrollment) => existingBranch f s existingEnrollment amount sessionId
    | .ok none => newBranch f s userId courseId amount sessionId

/-- HTTP responses the modelled endpoints produce. -/
inductive HttpResponse where
  /-- 400 with a plain text message (webhook path). -/
  | badRequest (msg : String)
  /-- 400 `{error: Missing required parameters}`. -/
  | missingParams
  /-- 400 "This is not a free course". -/
  | notFreeCourse
  /-- 500 "Failed to verify course". -/
  | courseLookupFailed
  /-- 500 "Failed to create enrollment". -/
  | enrollmentFailed
  /-- 200 `{received: true}` (webhook acknowledgement). -/
  | okReceived
  /-- 200 `{success: true, enrollment}`. -/
  | okEnrollment (e : Enrollment)
deriving DecidableEq, Repr

/-- The course-price fetch of the free-enrollment handler (index.ts lines
333-337): `.from(courses).select(price).eq(id, courseId).single()`. -/
def fetchCoursePrice (f : Faults) (s : Store) (courseId : String) : Except DbError Rat :=
  if f.fetchCourseFails then .error .injected
  else (single (s.courses.filter (fun co => co.id == courseId))).map Course.price

/-- The `/api/create-free-enrollment` handler (index.ts lines 323-371):
reject empty/missing ids (JS falsiness), 500 on course-fetch failure, 400 when
the course is not free, otherwise call the reconciler with amount 0 and the
sentinel reference; a reconciler throw is caught into a 500. -/
def createFreeEnrollment (f : Faults) (s : Store) (userId courseId : String) :
    HttpResponse × Store :=
  if userId == "" || courseId == "" then (.missingParams, s)
  else
    match fetchCoursePrice f s courseId with
    | .error _ => (.courseLookupFailed, s)
    | .ok price =>
      if 0 < price then (.notFreeCourse, s)
      else
        match createEnrollmentWithPayment f s userId courseId 0 "free-enrollment" with
        | (.ok e, s1) => (.okEnrollment e, s1)
        | (.error _, s1) => (.enrollmentFailed, s1)

/-- Floor of a rational (`den` is positive and the fraction reduced, so
flooring the quotient of `num` by `den` is exact). -/
def ratFloor (x : Rat) : Int := Int.fdiv x.num (x.den : Int)

/-- JavaScript `Math.round` on an exact rational: round half toward
positive infinity, `floor(x + 1/2)`. -/
def jsRound (x : Rat) : Int := ratFloor (x + 1 / 2)

/-- Rounding rule as the spec words it (round half to even, banker's
rounding); written from the spec sentence, for comparison against the
source's `Math.round`. -/
def roundHalfEven (x : Rat) : Int :=
  let f := ratFloor x
  let frac := x - (f : Rat)
  if frac < 1 / 2 then f
  else if 1 / 2 < frac then f + 1
  else if f % 2 = 0 then f else f + 1

/-- Request body of `/api/create-checkout-session`; absent JSON fields are
`none`. -/
structure CheckoutBody where
  courseId : Option String
  courseTitle : Option String
  coursePrice : Option Rat
  userId : Option String
  successUrl : Option String
  cancelUrl : Option String
deriving DecidableEq, Repr

/-- The parameters the handler passes to the processor's session-create call
(index.ts lines 176-195), as far as the service computes them. -/
structure SessionParams where
  currency : String
  productName : String
  unit_amount : Int
  quantity : Nat
  mode : String
  success_url : String
  cancel_url : String
  metaCourseId : String
  metaUserId : String
deriving DecidableEq, Repr

/-- JS falsiness of an optional string field: absent or empty. -/
def strFalsy (o : Option String) : Bool :=
  match o with
  | none => true
  | some s => s == ""

/-- The `/api/create-checkout-session` handler (index.ts lines 158-203) up to
the processor call: `none` when the missing-parameter 400 fires (courseId,
courseTitle or userId falsy, or coursePrice undefined), otherwise the
session-create parameters, with `unit_amount = Math.round(coursePrice * 100)`
and `{courseId, userId}` as metadata. -/
def createCheckout (frontendUrl : String) (b : CheckoutBody) : Option SessionParams :=
  match b.courseId, b.courseTitle, b.coursePrice, b.userId with
  | some courseId, some courseTitle, some coursePrice, some userId =>
    if courseId == "" || courseTitle == "" || userId == "" then none
    else
      some
        { currency := "usd"
          productName := courseTitle
          unit_amount := jsRound (coursePrice * 100)
          quantity := 1
          mode := "payment"
          success_url :=
            match b.successUrl with
            | some su =>
              if su == "" then
                frontendUrl ++ "/payment/success?session_id=\x7bCHECKOUT_SESSION_ID\x7d"
              else su
            | none => frontendUrl ++ "/payment/success?session_id=\x7bCHECKOUT_SESSION_ID\x7d"
          cancel_url :=
            match b.cancelUrl with
            | some cu => if cu == "" then frontendUrl ++ "/courses/" ++ courseId else cu
            | none => frontendUrl ++ "/courses/" ++ courseId
          metaCourseId := courseId
          metaUserId := userId }
  | _, _, _, _ => none

/-- Metadata attached to a processor checkout session. -/
structure SessionMetadata where
  courseId : Option String
  userId : Option String
deriving DecidableEq, Repr

/-- A processor checkout session as seen by the webhook handler. -/
structure CheckoutSessionObj where
  id : String
  payment_status : String
  amount_total : Option Int
  metadata : Option SessionMetadata
deriving DecidableEq, Repr

/-- A processor event, after signature verification. -/
inductive StripeEvent where
  /-- A `checkout.session.completed` event carrying its session. -/
  | checkoutSessionCompleted (session : CheckoutSessionObj)
  /-- Any other event type. -/
  | otherEvent (eventType : String)
deriving DecidableEq, Repr

/-- The `/api/stripe-webhook` handler (index.ts lines 206-257).
`constructEvent payload sig secret` abstracts
`stripe.webhooks.constructEvent`: signature verification plus payload
parsing, failing exactly when verification fails. A missing header or failed
verification is a 400 with the store untouched; on a verified event the
handler reconciles completed paid sessions carrying both metadata keys —
swallowing any reconciler throw — and always answers 200 `{received: true}`. -/
def stripeWebhook (constructEvent : String → String → String → Except String StripeEvent)
    (secret : String) (f : Faults) (s : Store) (payload : String)
    (sigHeader : Option String) : HttpResponse × Store :=
  match sigHeader with
  | none => (.badRequest "Missing stripe-signature header", s)
  | some sig =>
    match constructEvent payload sig secret with
    | .error m => (.badRequest ("Webhook Error: " ++ m), s)
    | .ok event =>
      match event with
      | .checkoutSessionCompleted session =>
        if session.payment_status == "paid" then
          match session.metadata with
          | some md =>
            match md.courseId, md.userId with
            | some courseId, some userId =>
              (.okReceived,
               (createEnrollmentWithPayment f s userId courseId
                  ((session.amount_total.getD 0 : Int) / (100 : Rat)) session.id).2)
            | _, _ => (.okReceived, s)
          | none => (.okReceived, s)
        else (.okReceived, s)
      | .otherEvent _ => (.okReceived, s)

/-- Arguments of one reconciler invocation, for sequential-composition
statements. -/
structure CallArgs where
  faults : Faults
  userId : String
  courseId : String
  amount : Rat
  sessionId : String

/-- Run a sequence of reconciler invocations, threading the store. -/
def runCalls (s : Store) (cs : List CallArgs) : Store :=
  cs.foldl
    (fun st cl =>
      (createEnrollmentWithPayment cl.faults st cl.userId cl.courseId cl.amount cl.sessionId).2)
    s

/-- Empty store, used to instantiate concrete scenarios. -/
def emptyStore : Store := ⟨[], [], [], 1, 1⟩

/-- Store with one enrollment of user `u` in course `c` and no payments. -/
def S1 : Store := ⟨[], [⟨1, "u", "c", "active"⟩], [], 2, 1⟩

/-- Fault schedule on which only the payment insert fails. -/
def F1 : Faults := ⟨false, false, false, true, false⟩

/-- Fault schedule on which only the enrollment lookup fails. -/
def F2 : Faults := ⟨true, false, false, false, false⟩

/-- Fault schedule on which only the payment lookup fails. -/
def F3 : Faults := ⟨false, true, false, false, false⟩

/-- Fault schedule on which only the enrollment insert fails. -/
def F4 : Faults := ⟨false, false, true, false, false⟩

/-- Store holding one free course `c` and nothing else. -/
def SFree : Store := ⟨[⟨"c", 0⟩], [], [], 1, 1⟩

/-- Store holding one paid course `c` (price 10) and nothing else. -/
def SPaid : Store := ⟨[⟨"c", 10⟩], [], [], 1, 1⟩

/-- A verifier that rejects every payload (signature verification failing). -/
def badCev : String → String → String → Except String StripeEvent :=
  fun _ _ _ => .error "bad"

/-- A verifier that accepts every payload as some non-checkout event. -/
def okCev : String → String → String → Except String StripeEvent :=
  fun _ _ _ => .ok (.otherEvent "evt")

lemma maybeSingle_eq_ok_none_iff {α : Type} (l : List α) :
    maybeSingle l = .ok none ↔ l = [] := by
  cases l with
  | nil => simp [maybeSingle]
  | cons a t => cases t <;> simp [maybeSingle]

lemma maybeSingle_eq_ok_some_iff {α : Type} (l : List α) (a : α) :
    maybeSingle l = .ok (some a) ↔ l = [a] := by
  cases l with
  | nil => simp [maybeSingle]
  | cons b t =>
    cases t with
    | nil => simp [maybeSingle]
    | cons b' t' => simp [maybeSingle]

lemma insertPaymentRow_enrollments (s : Store) (i : Nat) (a : Rat) (r : String) :
    (insertPaymentRow s i a r).enrollments = s.enrollments := rfl

lemma insertPaymentRow_payments (s : Store) (i : Nat) (a : Rat) (r : String) :
    (insertPaymentRow s i a r).payments =
      s.payments ++ [⟨s.nextPaymentId, i, a, "stripe", r, "completed"⟩] := rfl

lemma reconcile_found (f : Faults) (s : Store) (u c : String) (a : Rat) (r : String)
    (e : Enrollment) (hf : f.checkEnrollmentFails = false)
    (hm : enrollmentMatches s u c = [e]) :
    createEnrollmentWithPayment f s u c a r = existingBranch f s e a r := by
  simp [createEnrollmentWithPayment, hf, hm, maybeSingle]

lemma reconcile_notFound (f : Faults) (s : Store) (u c : String) (a : Rat) (r : String)
    (hf : f.checkEnrollmentFails = false) (hm : enrollmentMatches s u c = []) :
    createEnrollmentWithPayment f s u c a r = newBranch f s u c a r := by
  simp [createEnrollmentWithPayment, hf, hm, maybeSingle]

lemma reconcile_payments_nonpos (f : Faults) (s : Store) (u c : String) (a : Rat)
    (r : String) (ha : a ≤ 0) :
    ((createEnrollmentWithPayment f s u c a r).2).payments = s.payments := by
  have hlt : ¬ (0 < a) := not_lt.mpr ha
  unfold createEnrollmentWithPayment
  split
  · rfl
  · split
    · rfl
    · unfold existingBranch
      split
      · rfl
      · split
        · rfl
        · split
          · rename_i hguard
            exact absurd hguard.2 hlt
          · rfl
    · unfold newBranch
      split
      · rfl
      · simp only [hlt, if_false]

lemma reconcile_enrollments_cases (f : Faults) (s : Store) (u c : String) (a : Rat)
    (r : String) :
    ((createEnrollmentWithPayment f s u c a r).2).enrollments = s.enrollments ∨
      (enrollmentMatches s u c = [] ∧
        ((createEnrollmentWithPayment f s u c a r).2).enrollments =
          s.enrollments ++ [⟨s.nextEnrollmentId, u, c, "active"⟩]) := by
  unfold createEnrollmentWithPayment
  split
  · exact Or.inl rfl
  · split
    · exact Or.inl rfl
    · left
      unfold existingBranch
      split
      · rfl
      · split
        · rfl
        · split
          · split
            · rfl
            · rfl
          · rfl
    · rename_i hms
      have hnil := (maybeSingle_eq_ok_none_iff _).mp hms
      by_cases hf : f.insertEnrollmentFails = true
      · left
        simp [newBranch, hf]
      · right
        refine ⟨hnil, ?_⟩
        unfold newBranch
        rw [if_neg hf]
        split
        · split
          · rfl
          · rfl
        · rfl

lemma reconcile_payments_cases (f : Faults) (s : Store) (u c : String) (a : Rat)
    (r : String) :
    ((createEnrollmentWithPayment f s u c a r).2).payments = s.payments ∨
      ∃ p, ((createEnrollmentWithPayment f s u c a r).2).payments = s.payments ++ [p] := by
  unfold createEnrollmentWithPayment
  split
  · exact Or.inl rfl
  · split
    · exact Or.inl rfl
    · unfold existingBranch
      split
      · exact Or.inl rfl
      · split
        · exact Or.inl rfl
        · split
          · split
            · exact Or.inl rfl
            · exact Or.inr ⟨_, rfl⟩
          · exact Or.inl rfl
    · unfold newBranch
      split
      · exact Or.inl rfl
      · split
        · split
          · exact Or.inl rfl
          · exact Or.inr ⟨_, rfl⟩
        · exact Or.inl rfl

lemma reconcile_payments_length_le (f : Faults) (s : Store) (u c : String) (a : Rat)
    (r : String) :
    (((createEnrollmentWithPayment f s u c a r).2).payments).length ≤
      s.payments.length + 1 := by
  rcases reconcile_payments_cases f s u c a r with h | ⟨p, h⟩ <;> simp [h]

/-- Claim C1 counterexample: with user `u` already enrolled in course `c`
(store `S1`), no payment on file, amount `5 > 0`, and the payment insert
failing (`F1`), the reconciler propagates the error and does not return the
existing enrollment — the claim's swallow-and-return behaviour does not hold
on the already-enrolled branch. -/
theorem C1_counterexample :
    createEnrollmentWithPayment F1 S1 "u" "c" 5 "r" = (.error .injected, S1) ∧
    (createEnrollmentWithPayment F1 S1 "u" "c" 5 "r").1 ≠
      .ok ⟨1, "u", "c", "active"⟩ := by
  decide

/-- Claim C1 (amended): in reconcile, when an Enrollment already exists for
(userId, courseId), no Payment exists for (enrollment.id, paymentReference)
and amount > 0, a failure of the Payment-record write is PROPAGATED to the
caller (the store left unchanged), not swallowed; the existing Enrollment is
not returned in that case. -/
theorem C1_theorem (f : Faults) (s : Store) (e : Enrollment) (u c : String) (a : Rat)
    (r : String) (hce : f.checkEnrollmentFails = false)
    (hcp : f.checkPaymentFails = false) (hip : f.insertPaymentFails = true)
    (hm : enrollmentMatches s u c = [e]) (hp : paymentMatches s e.id r = [])
    (ha : 0 < a) :
    createEnrollmentWithPayment f s u c a r = (.error .injected, s) := by
  rw [reconcile_found f s u c a r e hce hm]
  simp [existingBranch, hcp, hp, maybeSingle, ha, hip]

/-- Claim C1 witness: the amended behaviour at the concrete input of the
counterexample. -/
theorem C1_witness :
    createEnrollmentWithPayment F1 S1 "u" "c" 5 "r" = (.error .injected, S1) :=
  C1_theorem F1 S1 ⟨1, "u", "c", "active"⟩ "u" "c" 5 "r" rfl rfl rfl (by decide)
    (by decide) (by norm_num)

/-- Claim C2 (confirmed): on the new-enrollment branch with amount > 0, if
the Payment-record creation fails the error is not propagated: the function
returns the newly created Enrollment, the Enrollment remains in the store
(a subsequent lookup finds exactly it), and no Payment row is written. -/
theorem C2_theorem (f : Faults) (s : Store) (u c : String) (a : Rat) (r : String)
    (h1 : f.checkEnrollmentFails = false) (h2 : f.insertEnrollmentFails = false)
    (h3 : f.insertPaymentFails = true) (h4 : enrollmentMatches s u c = [])
    (h5 : 0 < a) :
    createEnrollmentWithPayment f s u c a r =
      (.ok ⟨s.nextEnrollmentId, u, c, "active"⟩,
       { s with
         enrollments := s.enrollments ++ [⟨s.nextEnrollmentId, u, c, "active"⟩],
         nextEnrollmentId := s.nextEnrollmentId + 1 }) ∧
    enrollmentMatches ((createEnrollmentWithPayment f s u c a r).2) u c =
      [⟨s.nextEnrollmentId, u, c, "active"⟩] ∧
    ((createEnrollmentWithPayment f s u c a r).2).payments = s.payments := by
  have hmain :
      createEnrollmentWithPayment f s u c a r =
        (.ok ⟨s.nextEnrollmentId, u, c, "active"⟩,
         { s with
           enrollments := s.enrollments ++ [⟨s.nextEnrollmentId, u, c, "active"⟩],
           nextEnrollmentId := s.nextEnrollmentId + 1 }) := by
    rw [reconcile_notFound f s u c a r h1 h4]
    simp [newBranch, h2, h3, h5]
  refine ⟨hmain, ?_, ?_⟩
  · rw [hmain]
    have h4' : s.enrollments.filter
        (fun e => e.student_id == u && e.course_id == c) = [] := h4
    simp [enrollmentMatches, List.filter_append, h4']
  · rw [hmain]

/-- Claim C2 witness: a payment-insert failure on a fresh store still yields
the new enrollment. -/
theorem C2_witness :
    createEnrollmentWithPayment F1 emptyStore "u" "c" 5 "r" =
      (.ok ⟨1, "u", "c", "active"⟩,
       { emptyStore with
         enrollments := emptyStore.enrollments ++ [⟨1, "u", "c", "active"⟩],
         nextEnrollmentId := 2 }) ∧
    enrollmentMatches ((createEnrollmentWithPayment F1 emptyStore "u" "c" 5 "r").2) "u" "c" =
      [⟨1, "u", "c", "active"⟩] ∧
    ((createEnrollmentWithPayment F1 emptyStore "u" "c" 5 "r").2).payments =
      emptyStore.payments :=
  C2_theorem F1 emptyStore "u" "c" 5 "r" rfl rfl rfl (by decide) (by norm_num)

/-- Claim C5 (confirmed): a failure of the enrollment lookup, of the payment
lookup (already-enrolled branch), or of the enrollment insert aborts the
whole reconciliation, propagating the error with the store left unchanged —
in particular, after a failed enrollment insert no Enrollment and no Payment
row has been written. -/
theorem C5_theorem :
    (∀ (f : Faults) (s : Store) (u c : String) (a : Rat) (r : String),
       f.checkEnrollmentFails = true →
       createEnrollmentWithPayment f s u c a r = (.error .injected, s)) ∧
    (∀ (f : Faults) (s : Store) (e : Enrollment) (u c : String) (a : Rat) (r : String),
       f.checkEnrollmentFails = false → f.checkPaymentFails = true →
       enrollmentMatches s u c = [e] →
       createEnrollmentWithPayment f s u c a r = (.error .injected, s)) ∧
    (∀ (f : Faults) (s : Store) (u c : String) (a : Rat) (r : String),
       f.checkEnrollmentFails = false → f.insertEnrollmentFails = true →
       enrollmentMatches s u c = [] →
       createEnrollmentWithPayment f s u c a r = (.error .injected, s)) := by
  refine ⟨?_, ?_, ?_⟩
  · intro f s u c a r h
    simp [createEnrollmentWithPayment, h]
  · intro f s e u c a r h1 h2 hm
    rw [reconcile_found f s u c a r e h1 hm]
    simp [existingBranch, h2]
  · intro f s u c a r h1 h2 hm
    rw [reconcile_notFound f s u c a r h1 hm]
    simp [newBranch, h2]

/-- Claim C5 witness: each of the three failure modes at a concrete input. -/
theorem C5_witness :
    createEnrollmentWithPayment F2 S1 "u" "c" 5 "r" = (.error .injected, S1) ∧
    createEnrollmentWithPayment F3 S1 "u" "c" 5 "r" = (.error .injected, S1) ∧
    createEnrollmentWithPayment F4 emptyStore "u" "c" 5 "r" =
      (.error .injected, emptyStore) :=
  ⟨C5_theorem.1 F2 S1 "u" "c" 5 "r" rfl,
   C5_theorem.2.1 F3 S1 ⟨1, "u", "c", "active"⟩ "u" "c" 5 "r" rfl rfl (by decide),
   C5_theorem.2.2 F4 emptyStore "u" "c" 5 "r" rfl rfl (by decide)⟩

/-- Claim C10 (confirmed): with amount ≤ 0 the reconciler never writes to the
payments store, on either branch and under any fault schedule — the
`amount > 0` guard is the sole gate on Payment creation. -/
theorem C10_theorem (f : Faults) (s : Store) (u c : String) (a : Rat) (r : String)
    (ha : a ≤ 0) :
    ((createEnrollmentWithPayment f s u c a r).2).payments = s.payments :=
  reconcile_payments_nonpos f s u c a r ha

/-- Claim C10 witness: a zero-amount call on the already-enrolled store and
on the empty store leaves payments untouched. -/
theorem C10_witness :
    ((createEnrollmentWithPayment noFaults S1 "u" "c" 0 "r").2).payments =
      S1.payments ∧
    ((createEnrollmentWithPayment noFaults emptyStore "u" "c" (-3) "r").2).payments =
      emptyStore.payments :=
  ⟨C10_theorem noFaults S1 "u" "c" 0 "r" (by norm_num),
   C10_theorem noFaults emptyStore "u" "c" (-3) "r" (by norm_num)⟩

/-- Claim C3 (confirmed): starting from a store with no Enrollment for
(userId, courseId) — and no stray Payment row already referencing the fresh
enrollment id — two fault-free reconcile calls with identical arguments and
amount > 0 leave exactly one matching Enrollment and exactly one matching
Payment: the second call returns the Enrollment created by the first and
changes the store not at all. -/
theorem C3_theorem (s : Store) (u c r : String) (a : Rat)
    (h0 : enrollmentMatches s u c = [])
    (hfresh : ∀ p ∈ s.payments, p.enrollment_id ≠ s.nextEnrollmentId)
    (ha : 0 < a) :
    createEnrollmentWithPayment noFaults
        ((createEnrollmentWithPayment noFaults s u c a r).2) u c a r =
      (.ok ⟨s.nextEnrollmentId, u, c, "active"⟩,
       (createEnrollmentWithPayment noFaults s u c a r).2) ∧
    (enrollmentMatches ((createEnrollmentWithPayment noFaults s u c a r).2) u c).length =
      1 ∧
    (paymentMatches ((createEnrollmentWithPayment noFaults s u c a r).2)
        s.nextEnrollmentId r).length = 1 := by
  have h1 : createEnrollmentWithPayment noFaults s u c a r =
      (.ok ⟨s.nextEnrollmentId, u, c, "active"⟩,
       ⟨s.courses, s.enrollments ++ [⟨s.nextEnrollmentId, u, c, "active"⟩],
        s.payments ++
          [⟨s.nextPaymentId, s.nextEnrollmentId, a, "stripe", r, "completed"⟩],
        s.nextEnrollmentId + 1, s.nextPaymentId + 1⟩) := by
    rw [reconcile_notFound noFaults s u c a r rfl h0]
    simp [newBranch, insertPaymentRow, noFaults, ha]
  have h0' : s.enrollments.filter
      (fun e => e.student_id == u && e.course_id == c) = [] := h0
  have hm2 : enrollmentMatches ((createEnrollmentWithPayment noFaults s u c a r).2) u c =
      [⟨s.nextEnrollmentId, u, c, "active"⟩] := by
    rw [h1]
    simp [enrollmentMatches, List.filter_append, h0']
  have hfresh' : s.payments.filter
      (fun p => p.enrollment_id == s.nextEnrollmentId && p.transaction_id == r) = [] := by
    rw [List.filter_eq_nil_iff]
    intro p hp
    simp only [Bool.and_eq_true, beq_iff_eq, not_and]
    intro hid
    exact absurd hid (hfresh p hp)
  have hp2 : paymentMatches ((createEnrollmentWithPayment noFaults s u c a r).2)
      s.nextEnrollmentId r =
      [⟨s.nextPaymentId, s.nextEnrollmentId, a, "stripe", r, "completed"⟩] := by
    rw [h1]
    simp [paymentMatches, List.filter_append, hfresh']
  refine ⟨?_, by rw [hm2]; rfl, by rw [hp2]; rfl⟩
  rw [reconcile_found noFaults ((createEnrollmentWithPayment noFaults s u c a r).2)
      u c a r ⟨s.nextEnrollmentId, u, c, "active"⟩ rfl hm2]
  unfold existingBranch
  rw [if_neg (show ¬ (noFaults.checkPaymentFails = true) by decide)]
  dsimp only
  rw [hp2]
  simp [maybeSingle]

/-- Claim C3 witness: the double call on the empty store. -/
theorem C3_witness :
    createEnrollmentWithPayment noFaults
        ((createEnrollmentWithPayment noFaults emptyStore "u" "c" 5 "r").2) "u" "c" 5 "r" =
      (.ok ⟨1, "u", "c", "active"⟩,
       (createEnrollmentWithPayment noFaults emptyStore "u" "c" 5 "r").2) ∧
    (enrollmentMatches ((createEnrollmentWithPayment noFaults emptyStore "u" "c" 5 "r").2)
        "u" "c").length = 1 ∧
    (paymentMatches ((createEnrollmentWithPayment noFaults emptyStore "u" "c" 5 "r").2)
        1 "r").length = 1 :=
  C3_theorem emptyStore "u" "c" "r" 5 (by decide) (by decide) (by norm_num)

lemma enrollmentMatches_congr (s s' : Store) (u c : String)
    (h : s'.enrollments = s.enrollments) :
    enrollmentMatches s' u c = enrollmentMatches s u c := by
  simp [enrollmentMatches, h]

lemma reconcile_enrollMatches_le_one (f : Faults) (s : Store) (u c : String) (a : Rat)
    (r : String) (u' c' : String) (h : (enrollmentMatches s u' c').length ≤ 1) :
    (enrollmentMatches ((createEnrollmentWithPayment f s u c a r).2) u' c').length ≤ 1 := by
  rcases reconcile_enrollments_cases f s u c a r with h1 | ⟨hnil, h1⟩
  · rw [enrollmentMatches_congr s _ u' c' h1]
    exact h
  · have hsplit : enrollmentMatches ((createEnrollmentWithPayment f s u c a r).2) u' c' =
        enrollmentMatches s u' c' ++
          List.filter (fun e => e.student_id == u' && e.course_id == c')
            [⟨s.nextEnrollmentId, u, c, "active"⟩] := by
      simp [enrollmentMatches, h1, List.filter_append]
    rw [hsplit]
    by_cases hb : u = u' ∧ c = c'
    · obtain ⟨hu, hc⟩ := hb
      subst hu
      subst hc
      rw [hnil]
      simp
    · have hone : List.filter (fun e => e.student_id == u' && e.course_id == c')
          [(⟨s.nextEnrollmentId, u, c, "active"⟩ : Enrollment)] = [] := by
        rw [List.filter_eq_nil_iff]
        intro x hx
        rw [List.mem_singleton] at hx
        subst hx
        simp only [Bool.and_eq_true, beq_iff_eq]
        exact hb
      rw [hone]
      simpa using h

lemma reconcile_enrollMatches_eq_one (f : Faults) (s : Store) (u c : String) (a : Rat)
    (r : String) (u' c' : String) (h : (enrollmentMatches s u' c').length = 1) :
    (enrollmentMatches ((createEnrollmentWithPayment f s u c a r).2) u' c').length = 1 := by
  rcases reconcile_enrollments_cases f s u c a r with h1 | ⟨hnil, h1⟩
  · rw [enrollmentMatches_congr s _ u' c' h1]
    exact h
  · have hsplit : enrollmentMatches ((createEnrollmentWithPayment f s u c a r).2) u' c' =
        enrollmentMatches s u' c' ++
          List.filter (fun e => e.student_id == u' && e.course_id == c')
            [⟨s.nextEnrollmentId, u, c, "active"⟩] := by
      simp [enrollmentMatches, h1, List.filter_append]
    rw [hsplit]
    by_cases hb : u = u' ∧ c = c'
    · obtain ⟨hu, hc⟩ := hb
      subst hu
      subst hc
      rw [hnil] at h
      simp at h
    · have hone : List.filter (fun e => e.student_id == u' && e.course_id == c')
          [(⟨s.nextEnrollmentId, u, c, "active"⟩ : Enrollment)] = [] := by
        rw [List.filter_eq_nil_iff]
        intro x hx
        rw [List.mem_singleton] at hx
        subst hx
        simp only [Bool.and_eq_true, beq_iff_eq]
        exact hb
      rw [hone]
      simpa using h

lemma runCalls_enrollMatches_eq_one (cs : List CallArgs) (s : Store) (u c : String)
    (h : (enrollmentMatches s u c).length = 1) :
    (enrollmentMatches (runCalls s cs) u c).length = 1 := by
  induction cs generalizing s with
  | nil => exact h
  | cons cl t ih =>
    exact ih _ (reconcile_enrollMatches_eq_one cl.faults s cl.userId cl.courseId
      cl.amount cl.sessionId u c h)

/-- Claim C4 (confirmed): once exactly one Enrollment exists for (userId,
courseId), any sequence of reconcile calls — any fault schedules, amounts and
references — leaves exactly one Enrollment for that pair; a single call
preserves the at-most-one-Enrollment-per-pair invariant for every pair; and
two sequential calls add at most two Payment rows. -/
theorem C4_theorem :
    (∀ (s : Store) (u c : String) (cs : List CallArgs),
       (enrollmentMatches s u c).length = 1 →
       (enrollmentMatches (runCalls s cs) u c).length = 1) ∧
    (∀ (f : Faults) (s : Store) (u c : String) (a : Rat) (r : String) (u' c' : String),
       (enrollmentMatches s u' c').length ≤ 1 →
       (enrollmentMatches ((createEnrollmentWithPayment f s u c a r).2) u' c').length ≤ 1) ∧
    (∀ (f1 f2 : Faults) (s : Store) (u c : String) (a1 a2 : Rat) (r1 r2 : String),
       (((createEnrollmentWithPayment f2
           ((createEnrollmentWithPayment f1 s u c a1 r1).2) u c a2 r2).2).payments).length ≤
         s.payments.length + 2) := by
  refine ⟨?_, ?_, ?_⟩
  · intro s u c cs h
    exact runCalls_enrollMatches_eq_one cs s u c h
  · intro f s u c a r u' c' h
    exact reconcile_enrollMatches_le_one f s u c a r u' c' h
  · intro f1 f2 s u c a1 a2 r1 r2
    have h1 := reconcile_payments_length_le f1 s u c a1 r1
    have h2 := reconcile_payments_length_le f2
      ((createEnrollmentWithPayment f1 s u c a1 r1).2) u c a2 r2
    omega

/-- Claim C4 witness: the three parts at concrete inputs — a second call with
a distinct reference on the already-enrolled store `S1`. -/
theorem C4_witness :
    (enrollmentMatches (runCalls S1 [⟨noFaults, "u", "c", 5, "r2"⟩]) "u" "c").length = 1 ∧
    (enrollmentMatches ((createEnrollmentWithPayment noFaults S1 "u" "c" 5 "r2").2)
        "u" "c").length ≤ 1 ∧
    (((createEnrollmentWithPayment noFaults
        ((createEnrollmentWithPayment noFaults S1 "u" "c" 5 "r1").2) "u" "c" 5 "r2").2).payments).length ≤
      S1.payments.length + 2 :=
  ⟨C4_theorem.1 S1 "u" "c" [⟨noFaults, "u", "c", 5, "r2"⟩] (by decide),
   C4_theorem.2.1 noFaults S1 "u" "c" 5 "r2" "u" "c" (by decide),
   C4_theorem.2.2 noFaults noFaults S1 "u" "c" 5 5 "r1" "r2"⟩

lemma reconcile_zero_ok (s : Store) (u c r' : String)
    (hle : (enrollmentMatches s u c).length ≤ 1)
    (hpay : ∀ e ∈ enrollmentMatches s u c, (paymentMatches s e.id r').length ≤ 1) :
    ∃ e s1, createEnrollmentWithPayment noFaults s u c 0 r' = (.ok e, s1) := by
  cases hm : enrollmentMatches s u c with
  | nil =>
    have heq : createEnrollmentWithPayment noFaults s u c 0 r' =
        (.ok ⟨s.nextEnrollmentId, u, c, "active"⟩,
         { s with
           enrollments := s.enrollments ++ [⟨s.nextEnrollmentId, u, c, "active"⟩],
           nextEnrollmentId := s.nextEnrollmentId + 1 }) := by
      rw [reconcile_notFound noFaults s u c 0 r' rfl hm]
      norm_num [newBranch, noFaults]
    exact ⟨_, _, heq⟩
  | cons e t =>
    cases t with
    | nil =>
      have hp := hpay e (by rw [hm]; exact List.mem_singleton_self e)
      have hfound := reconcile_found noFaults s u c 0 r' e rfl hm
      cases hpm : paymentMatches s e.id r' with
      | nil =>
        have heq : createEnrollmentWithPayment noFaults s u c 0 r' = (.ok e, s) := by
          rw [hfound]
          unfold existingBranch
          rw [if_neg (show ¬ (noFaults.checkPaymentFails = true) by decide), hpm]
          norm_num [maybeSingle]
        exact ⟨_, _, heq⟩
      | cons p t' =>
        cases t' with
        | nil =>
          have heq : createEnrollmentWithPayment noFaults s u c 0 r' = (.ok e, s) := by
            rw [hfound]
            unfold existingBranch
            rw [if_neg (show ¬ (noFaults.checkPaymentFails = true) by decide), hpm]
            norm_num [maybeSingle]
          exact ⟨_, _, heq⟩
        | cons p2 t2 =>
          rw [hpm] at hp
          simp at hp
    | cons e2 t2 =>
      rw [hm] at hle
      simp at hle

/-- Claim C6 (confirmed): with non-empty ids and a course fetch returning
`price`, the free-enrollment endpoint on a course with price > 0 answers the
not-a-free-course client error with the store untouched; on a course with
price 0 it hands the store to the Reconciler invoked with amount 0 and the
sentinel reference "free-enrollment", writes no Payment row, and — with a
fault-free store satisfying the at-most-one invariants — succeeds with the
enrollment. -/
theorem C6_theorem (f : Faults) (s : Store) (u c : String) (price : Rat)
    (hu : u ≠ "") (hc : c ≠ "") (hp : fetchCoursePrice f s c = .ok price) :
    (0 < price → createFreeEnrollment f s u c = (.notFreeCourse, s)) ∧
    (price = 0 →
      (createFreeEnrollment f s u c).2 =
        (createEnrollmentWithPayment f s u c 0 "free-enrollment").2 ∧
      ((createFreeEnrollment f s u c).2).payments = s.payments ∧
      (f = noFaults → (enrollmentMatches s u c).length ≤ 1 →
        (∀ e ∈ enrollmentMatches s u c,
          (paymentMatches s e.id "free-enrollment").length ≤ 1) →
        ∃ e, (createFreeEnrollment f s u c).1 = .okEnrollment e)) := by
  have hstep : createFreeEnrollment f s u c =
      (if 0 < price then (.notFreeCourse, s)
       else
         match createEnrollmentWithPayment f s u c 0 "free-enrollment" with
         | (.ok e, s1) => (.okEnrollment e, s1)
         | (.error _, s1) => (.enrollmentFailed, s1)) := by
    unfold createFreeEnrollment
    rw [if_neg (show ¬ ((u == "" || c == "") = true) by simp [hu, hc]), hp]
  refine ⟨?_, ?_⟩
  · intro hpos
    rw [hstep, if_pos hpos]
  · intro hzero
    subst hzero
    have hstep0 : createFreeEnrollment f s u c =
        (match createEnrollmentWithPayment f s u c 0 "free-enrollment" with
         | (.ok e, s1) => (.okEnrollment e, s1)
         | (.error _, s1) => (.enrollmentFailed, s1)) := by
      rw [hstep, if_neg (lt_irrefl 0)]
    have hA : (createFreeEnrollment f s u c).2 =
        (createEnrollmentWithPayment f s u c 0 "free-enrollment").2 := by
      rw [hstep0]
      rcases hrec : createEnrollmentWithPayment f s u c 0 "free-enrollment" with ⟨res, s1⟩
      cases res <;> rfl
    refine ⟨hA, ?_, ?_⟩
    · rw [hA]
      exact reconcile_payments_nonpos f s u c 0 "free-enrollment" le_rfl
    · intro hnof hle hpay
      subst hnof
      obtain ⟨e, s1, hok⟩ := reconcile_zero_ok s u c "free-enrollment" hle hpay
      rw [hstep0, hok]
      exact ⟨e, rfl⟩

/-- Claim C6 witness: the paid course is rejected with no writes; the free
course succeeds with no Payment row. -/
theorem C6_witness :
    createFreeEnrollment noFaults SPaid "u" "c" = (.notFreeCourse, SPaid) ∧
    ((createFreeEnrollment noFaults SFree "u" "c").2).payments = SFree.payments ∧
    (∃ e, (createFreeEnrollment noFaults SFree "u" "c").1 = .okEnrollment e) :=
  ⟨(C6_theorem noFaults SPaid "u" "c" 10 (by decide) (by decide) (by decide)).1
     (by norm_num),
   ((C6_theorem noFaults SFree "u" "c" 0 (by decide) (by decide) (by decide)).2 rfl).2.1,
   ((C6_theorem noFaults SFree "u" "c" 0 (by decide) (by decide) (by decide)).2 rfl).2.2
     rfl (by decide) (by decide)⟩

lemma ratFloor_eq_floor (x : Rat) : ratFloor x = Int.floor x := by
  unfold ratFloor
  rw [Int.fdiv_eq_ediv _ (Int.ofNat_nonneg x.den), Rat.floor_def]

lemma jsRound_eq (x : Rat) : jsRound x = Int.floor (x + 1 / 2) := by
  unfold jsRound
  exact ratFloor_eq_floor _

/-- Claim C7 counterexample: for a course priced 0.125 the handler's
`Math.round(price * 100)` yields 13, while round-half-to-even applied to
`price * 100 = 12.5` yields 12 — the conversion is not round-half-to-even. -/
theorem C7_counterexample :
    (createCheckout "http://localhost:5173"
        ⟨some "c1", some "T", some (1 / 8), some "u1", none, none⟩).map
      SessionParams.unit_amount = some 13 ∧
    roundHalfEven ((1 / 8 : Rat) * 100) = 12 := by
  constructor
  · have hred : (createCheckout "http://localhost:5173"
        ⟨some "c1", some "T", some (1 / 8), some "u1", none, none⟩).map
        SessionParams.unit_amount = some (jsRound ((1 / 8 : Rat) * 100)) := rfl
    have hval : jsRound ((1 / 8 : Rat) * 100) = 13 := by
      rw [jsRound_eq, Int.floor_eq_iff]
      norm_num
    rw [hred, hval]
  · have hf : ratFloor ((1 / 8 : Rat) * 100) = 12 := by
      rw [ratFloor_eq_floor, Int.floor_eq_iff]
      norm_num
    unfold roundHalfEven
    rw [hf]
    norm_num

/-- Claim C7 (amended): createCheckout converts coursePrice to the line-item
minor-unit amount by JavaScript `Math.round` semantics — floor of
`price * 100 + 1/2`, i.e. round half toward positive infinity, not
round-half-to-even — and embeds {courseId, userId} as the session metadata;
for a course priced 49.99 by user u1 on course c1 the unit amount is 4999
with metadata {c1, u1}. -/
theorem C7_theorem :
    (∀ (fu cid title : String) (price : Rat) (uid : String) (su cu : Option String),
       cid ≠ "" → title ≠ "" → uid ≠ "" →
       (createCheckout fu ⟨some cid, some title, some price, some uid, su, cu⟩).map
           SessionParams.unit_amount = some (jsRound (price * 100)) ∧
       (createCheckout fu ⟨some cid, some title, some price, some uid, su, cu⟩).map
           SessionParams.metaCourseId = some cid ∧
       (createCheckout fu ⟨some cid, some title, some price, some uid, su, cu⟩).map
           SessionParams.metaUserId = some uid) ∧
    ((createCheckout "http://localhost:5173"
         ⟨some "c1", some "Course", some (4999 / 100), some "u1", none, none⟩).map
       SessionParams.unit_amount = some 4999 ∧
     (createCheckout "http://localhost:5173"
         ⟨some "c1", some "Course", some (4999 / 100), some "u1", none, none⟩).map
       SessionParams.metaCourseId = some "c1" ∧
     (createCheckout "http://localhost:5173"
         ⟨some "c1", some "Course", some (4999 / 100), some "u1", none, none⟩).map
       SessionParams.metaUserId = some "u1") := by
  constructor
  · intro fu cid title price uid su cu h1 h2 h3
    refine ⟨?_, ?_, ?_⟩ <;> simp [createCheckout, h1, h2, h3]
  · have hred : (createCheckout "http://localhost:5173"
        ⟨some "c1", some "Course", some (4999 / 100), some "u1", none, none⟩).map
        SessionParams.unit_amount = some (jsRound ((4999 / 100 : Rat) * 100)) := rfl
    have hval : jsRound ((4999 / 100 : Rat) * 100) = 4999 := by
      rw [jsRound_eq, Int.floor_eq_iff]
      norm_num
    exact ⟨by rw [hred, hval], rfl, rfl⟩

/-- Claim C7 witness: the general conversion rule at a concrete input. -/
theorem C7_witness :
    (createCheckout "f" ⟨some "a", some "t", some 2, some "b", none, none⟩).map
        SessionParams.unit_amount = some (jsRound (2 * 100)) ∧
    (createCheckout "f" ⟨some "a", some "t", some 2, some "b", none, none⟩).map
        SessionParams.metaCourseId = some "a" ∧
    (createCheckout "f" ⟨some "a", some "t", some 2, some "b", none, none⟩).map
        SessionParams.metaUserId = some "b" :=
  C7_theorem.1 "f" "a" "t" 2 "b" none none (by decide) (by decide) (by decide)

/-- Claim C8 (confirmed): a webhook delivery with no stripe-signature header,
or whose payload fails signature verification against the configured secret,
is answered 400 with the store untouched — no Enrollment or Payment write
happens and the Reconciler is never reached. -/
theorem C8_theorem :
    (∀ (cev : String → String → String → Except String StripeEvent) (secret : String)
        (f : Faults) (s : Store) (payload : String),
       stripeWebhook cev secret f s payload none =
         (.badRequest "Missing stripe-signature header", s)) ∧
    (∀ (cev : String → String → String → Except String StripeEvent) (secret : String)
        (f : Faults) (s : Store) (payload sig m : String),
       cev payload sig secret = .error m →
       stripeWebhook cev secret f s payload (some sig) =
         (.badRequest ("Webhook Error: " ++ m), s)) := by
  constructor
  · intro cev secret f s payload
    rfl
  · intro cev secret f s payload sig m h
    simp only [stripeWebhook]
    rw [h]

/-- Claim C8 witness: both rejection paths at a concrete input. -/
theorem C8_witness :
    stripeWebhook badCev "sec" noFaults emptyStore "payload" none =
      (.badRequest "Missing stripe-signature header", emptyStore) ∧
    stripeWebhook badCev "sec" noFaults emptyStore "payload" (some "sig") =
      (.badRequest ("Webhook Error: " ++ "bad"), emptyStore) :=
  ⟨C8_theorem.1 badCev "sec" noFaults emptyStore "payload",
   C8_theorem.2 badCev "sec" noFaults emptyStore "payload" "sig" "bad" rfl⟩

/-- Claim C9 (confirmed): every webhook delivery that passes signature
verification is answered 200 `{received: true}`, whatever the event type,
payment status, metadata, or the outcome of the reconciliation (any fault
schedule) — reconciliation errors never reach the HTTP response. -/
theorem C9_theorem (cev : String → String → String → Except String StripeEvent)
    (secret : String) (f : Faults) (s : Store) (payload sig : String)
    (ev : StripeEvent) (h : cev payload sig secret = .ok ev) :
    (stripeWebhook cev secret f s payload (some sig)).1 = .okReceived := by
  simp only [stripeWebhook]
  rw [h]
  rcases ev with ⟨⟨sid, ps, amt, md⟩⟩ | t
  · dsimp only
    by_cases hps : (ps == "paid") = true
    · rw [if_pos hps]
      rcases md with _ | ⟨cid, uid⟩
      · rfl
      · rcases cid with _ | cid <;> rcases uid with _ | uid <;> rfl
    · rw [if_neg hps]
  · rfl

/-- Claim C9 witness: a verified delivery acknowledged at a concrete input. -/
theorem C9_witness :
    (stripeWebhook okCev "sec" noFaults emptyStore "payload" (some "sig")).1 =
      .okReceived :=
  C9_theorem okCev "sec" noFaults emptyStore "payload" "sig" (.otherEvent "evt") rfl
